import Mathlib

/-!
Verification of the hyp-api-k6 load-testing harness specification.

The development shallowly embeds the payload generators and the
order-lifecycle workflow drivers of the repository:

* `src/data/test-data.js`    — payload generators (orders, POS status
  updates, delivery callbacks, user pool);
* `src/data/dynamic-data.js` — dynamic order generator over fetched menus;
* `src/utils/helpers.js`     — response parsing helpers (`extractId`,
  `extractData`);
* `src/scenarios/order-lifecycle-test.js` and the sanity/multi lifecycle
  scenario — the phased workflow driver;
* the mixed-load scenario's `completeOrderFlow`.

Monetary arithmetic is embedded over `ℚ` with explicit rounding to two
decimals at exactly the places the JavaScript source rounds
(`parseFloat(x.toFixed(2))`).  JavaScript values appearing in parsed
response bodies are embedded as a `Json` inductive together with the
JavaScript notions of truthiness, `||`, optional chaining and
member-access-throws-on-null that the source relies on.  Randomised
choices (item selection, quantities) are inputs of the embedded
functions.  Times are milliseconds since an arbitrary base, as `ℕ`.
-/

namespace HypK6

/-- Round a rational to two decimal places, half away from midpoint upward:
the embedding of `parseFloat(x.toFixed(2))` on exact decimal values. -/
def round2 (q : ℚ) : ℚ := (⌊q * 100 + 1/2⌋ : ℚ) / 100

/-- JSON values as parsed from a response body. -/
inductive Json where
  | null : Json
  | bool : Bool → Json
  | num : ℚ → Json
  | str : String → Json
  | arr : List Json → Json
  | obj : List (String × Json) → Json
  deriving Repr

/-- Field lookup on a JSON value: `some v` when the value is an object
with the field, `none` (JS `undefined`) otherwise.  Never throws; the
throwing case (member access on `null`) is handled at each use site. -/
def Json.lookup : Json → String → Option Json
  | .obj fields, k => (fields.find? (fun p => p.1 = k)).map (fun p => p.2)
  | _, _ => none

/-- JavaScript truthiness of a possibly-`undefined` value (`none` is
`undefined`). -/
def isTruthy : Option Json → Bool
  | none => false
  | some .null => false
  | some (.bool b) => b
  | some (.num q) => decide (q ≠ 0)
  | some (.str s) => decide (s ≠ "")
  | some (.arr _) => true
  | some (.obj _) => true

/-- JavaScript `a || b`. -/
def jsOr (a b : Option Json) : Option Json := if isTruthy a then a else b

/-- Optional chaining `v?.k` applied to a possibly-`undefined` value:
`null`/`undefined` receivers yield `undefined`, otherwise field lookup. -/
def optGet (v : Option Json) (k : String) : Option Json :=
  match v with
  | none => none
  | some .null => none
  | some j => j.lookup k

/-- Optional chaining `v?.[0]`: element `0` of an array, property `"0"`
of an object, first character of a nonempty string, `undefined`
otherwise. -/
def optIndex0 (v : Option Json) : Option Json :=
  match v with
  | none => none
  | some .null => none
  | some (.arr (x :: _)) => some x
  | some (.arr []) => none
  | some (.obj fields) => Json.lookup (.obj fields) "0"
  | some (.str s) =>
      match s.data with
      | [] => none
      | c :: _ => some (.str (String.mk [c]))
  | some _ => none

/-- Member access `v.k` on a JSON value, JavaScript semantics: throws
(`Except.error`) when the receiver is `null`, otherwise yields the field
or `undefined`. -/
def jsGetField (v : Json) (k : String) : Except Unit (Option Json) :=
  match v with
  | .null => .error ()
  | j => .ok (j.lookup k)

/-! ## Order payload generators

`generateOrderDto` (static sample items, `test-data.js`) and
`generateDynamicOrderDto` (fetched menu items, `dynamic-data.js`).
The random item picks and per-item quantities are inputs. -/

/-- An entry of `SAMPLE_ITEMS` in `test-data.js`. -/
structure SampleItem where
  id : String
  name : String
  price : ℚ
  cgstRate : ℚ
  sgstRate : ℚ
  deriving Repr

def SAMPLE_ITEMS : List SampleItem :=
  [ ⟨"10523187", "Double Chicken Burger Combo", 569.5, 2.5, 2.5⟩,
    ⟨"10523188", "Vanilla Icecream", 19, 2.5, 2.5⟩,
    ⟨"1269809087", "Vegetable Green Thai Curry With Jasmine Rice", 250, 2.5, 2.5⟩,
    ⟨"1269869732", "Paneer Inferno", 180, 2.5, 2.5⟩ ]

def TAX_ID_CGST : String := "271757"
def TAX_ID_SGST : String := "271758"

/-- One entry of an order item's `orderItemTax` array. -/
structure OrderItemTax where
  id : String
  name : String
  amount : ℚ
  deriving Repr

/-- One entry of the payload's `orderItems` array. -/
structure OrderItem where
  id : String
  name : String
  itemDiscount : ℚ
  finalPrice : ℚ
  quantity : ℕ
  price : ℚ
  orderItemTax : List OrderItemTax
  deriving Repr

/-- One entry of the payload's `orderTax` array. -/
structure OrderTaxLine where
  id : String
  title : String
  type : String
  price : ℚ
  tax : ℚ
  restaurantLiableAmt : ℚ
  deriving Repr

/-- The order payload fields relevant to the monetary invariants. -/
structure OrderDto where
  restaurantId : String
  customerId : String
  orderType : String
  paymentType : String
  orderItems : List OrderItem
  orderTax : List OrderTaxLine
  addressId : String
  totalAmount : ℚ
  discountAmount : ℚ
  taxAmount : ℚ
  deliveryCharge : ℚ
  packagingCharge : ℚ
  grandTotalAmount : ℚ
  deriving Repr

/-- Options object accepted by both generators (absent field = JS
`undefined`; the generators apply `||`-style defaulting, under which an
empty string also falls back to the default). -/
structure OrderOptions where
  orderType : Option String := none
  paymentType : Option String := none
  addressId : Option String := none
  deriving Repr

/-- JS `opt || dflt` on an optional string. -/
def strOrDefault (o : Option String) (dflt : String) : String :=
  match o with
  | none => dflt
  | some s => if s = "" then dflt else s

/-- `generateOrderDto` from `test-data.js`.  `selections` is the list of
random `(item, quantity)` draws made by the loop (one per generated
order item). -/
def generateOrderDto (restaurantId customerId : String)
    (selections : List (SampleItem × ℕ)) (options : OrderOptions) : OrderDto :=
  let orderItems : List OrderItem := selections.map (fun s =>
    let item := s.1
    let quantity : ℕ := s.2
    let finalPrice := item.price * (quantity : ℚ)
    let cgstAmount := finalPrice * item.cgstRate / 100
    let sgstAmount := finalPrice * item.sgstRate / 100
    { id := item.id, name := item.name, itemDiscount := 0,
      finalPrice := finalPrice, quantity := quantity, price := item.price,
      orderItemTax :=
        [ ⟨TAX_ID_CGST, "CGST", round2 cgstAmount⟩,
          ⟨TAX_ID_SGST, "SGST", round2 sgstAmount⟩ ] })
  let subtotal : ℚ := (selections.map (fun s => s.1.price * (s.2 : ℚ))).sum
  let totalCgst : ℚ := (selections.map (fun s => s.1.price * (s.2 : ℚ) * s.1.cgstRate / 100)).sum
  let totalSgst : ℚ := (selections.map (fun s => s.1.price * (s.2 : ℚ) * s.1.sgstRate / 100)).sum
  let taxAmount := totalCgst + totalSgst
  let deliveryCharge : ℚ := if options.orderType = some "2" then 0 else 53.1
  let packagingCharge : ℚ := 20
  let grandTotal := subtotal + taxAmount + deliveryCharge + packagingCharge
  { restaurantId := restaurantId, customerId := customerId,
    orderType := strOrDefault options.orderType "1",
    paymentType := strOrDefault options.paymentType "CREDIT",
    orderItems := orderItems,
    orderTax :=
      [ ⟨TAX_ID_CGST, "CGST", "1", 2.5, round2 totalCgst, round2 totalCgst⟩,
        ⟨TAX_ID_SGST, "SGST", "1", 2.5, round2 totalSgst, round2 totalSgst⟩ ],
    addressId := strOrDefault options.addressId "106335",
    totalAmount := round2 grandTotal, discountAmount := 0,
    taxAmount := round2 taxAmount,
    deliveryCharge := deliveryCharge, packagingCharge := packagingCharge,
    grandTotalAmount := round2 grandTotal }

/-- A tax attached to a fetched menu item (`dynamic-data.js`). -/
structure MenuTax where
  id : String
  name : String
  rate : ℚ
  type : String
  deriving Repr

/-- A fetched menu item (`dynamic-data.js`). -/
structure MenuItem where
  id : String
  name : String
  price : ℚ
  taxes : List MenuTax
  deriving Repr

/-- An entry of the `taxTotals` map of `generateDynamicOrderDto`. -/
structure TaxTotal where
  id : String
  name : String
  rate : ℚ
  type : String
  total : ℚ
  deriving Repr

/-- `taxTotals.get(id) || {...tax, total: 0}; total += amt; set(id, ...)`:
update the insertion-ordered map, appending a fresh entry when the id is
new (a JS `Map` keeps insertion order and `set` on an existing key keeps
its position and, here, the first-seen name/rate/type). -/
def addTax (m : List TaxTotal) (t : MenuTax) (amt : ℚ) : List TaxTotal :=
  match m with
  | [] => [⟨t.id, t.name, t.rate, t.type, amt⟩]
  | x :: xs =>
      if x.id = t.id then { x with total := x.total + amt } :: xs
      else x :: addTax xs t amt

/-- The `(tax, taxAmount)` contributions in the order the nested loops of
`generateDynamicOrderDto` produce them. -/
def taxContributions (selections : List (MenuItem × ℕ)) : List (MenuTax × ℚ) :=
  selections.flatMap (fun s =>
    s.1.taxes.map (fun t => (t, s.1.price * (s.2 : ℚ) * t.rate / 100)))

/-- The `taxTotals` map after processing all selected items. -/
def taxTotalsOf (selections : List (MenuItem × ℕ)) : List TaxTotal :=
  (taxContributions selections).foldl (fun m p => addTax m p.1 p.2) []

/-- `generateDynamicOrderDto` from `dynamic-data.js`.  `selections` is
the list produced by `getRandomItems` paired with the random quantities;
the function returns `none` when no items were selected (the source
returns `null`). -/
def generateDynamicOrderDto (restaurantId customerId : String)
    (selections : List (MenuItem × ℕ)) (options : OrderOptions) : Option OrderDto :=
  if selections.isEmpty then none else
  let orderItems : List OrderItem := selections.map (fun s =>
    let item := s.1
    let quantity : ℕ := s.2
    let finalPrice := item.price * (quantity : ℚ)
    { id := item.id, name := item.name, itemDiscount := 0,
      finalPrice := finalPrice, quantity := quantity, price := item.price,
      orderItemTax := item.taxes.map (fun t =>
        ⟨t.id, t.name, round2 (finalPrice * t.rate / 100)⟩) })
  let subtotal : ℚ := (selections.map (fun s => s.1.price * (s.2 : ℚ))).sum
  let taxTotals := taxTotalsOf selections
  let orderTax : List OrderTaxLine := taxTotals.map (fun t =>
    ⟨t.id, t.name, t.type, t.rate, round2 t.total, round2 t.total⟩)
  let taxAmount : ℚ := (taxTotals.map (fun t => t.total)).sum
  let deliveryCharge : ℚ := if options.orderType = some "2" then 0 else 53.1
  let packagingCharge : ℚ := 20
  let grandTotal := subtotal + taxAmount + deliveryCharge + packagingCharge
  some
    { restaurantId := restaurantId, customerId := customerId,
      orderType := strOrDefault options.orderType "1",
      paymentType := strOrDefault options.paymentType "CREDIT",
      orderItems := orderItems, orderTax := orderTax,
      addressId := strOrDefault options.addressId "106335",
      totalAmount := round2 grandTotal, discountAmount := 0,
      taxAmount := round2 taxAmount,
      deliveryCharge := deliveryCharge, packagingCharge := packagingCharge,
      grandTotalAmount := round2 grandTotal }

/-- The raw (unrounded) tax of one static selection: the item's
`finalPrice` times its combined CGST+SGST rate. -/
def staticItemTax (s : SampleItem × ℕ) : ℚ :=
  s.1.price * (s.2 : ℚ) * (s.1.cgstRate + s.1.sgstRate) / 100

/-- The raw (unrounded) tax of one dynamic selection: the item's
`finalPrice` times each of its tax rates, summed. -/
def dynamicItemTax (s : MenuItem × ℕ) : ℚ :=
  (s.1.taxes.map (fun t => s.1.price * (s.2 : ℚ) * t.rate / 100)).sum

/-! ## POS order status update generator (`generateOrderStatusUpdate`) -/

/-- The payload POSTed to the POS order-update callback. -/
structure StatusUpdatePayload where
  restID : String
  orderID : String
  status : String
  minimum_prep_time : ℕ
  minimum_delivery_time : String
  deriving Repr, DecidableEq

/-- The `statusMap` lookup table of `generateOrderStatusUpdate`. -/
def posStatusMap : List (String × String) :=
  [("ACCEPTED", "3"), ("READY_FOR_DELIVERY", "5")]

/-- `generateOrderStatusUpdate` from `test-data.js`: `statusMap[status] ||
status` (a missing key gives `undefined`, so `||` falls back to the input
status). -/
def generateOrderStatusUpdate (menuSharingCode orderId status : String) :
    StatusUpdatePayload :=
  let statusCode :=
    match (posStatusMap.find? (fun p => p.1 = status)).map (fun p => p.2) with
    | some c => c
    | none => status
  { restID := menuSharingCode, orderID := orderId, status := statusCode,
    minimum_prep_time := 15, minimum_delivery_time := "" }

/-! ## Delivery callback generator and the driver's callback loop -/

/-- The `DELIVERY_STATUS_SEQUENCE` constant of `test-data.js`. -/
def DELIVERY_STATUS_SEQUENCE : List String :=
  ["CREATED", "OUT_FOR_PICKUP", "PICKED_UP", "OUT_FOR_DELIVERY", "DELIVERED"]

/-- The unused 6-stage `getDeliveryStatusSequence()` of `test-data.js`. -/
def getDeliveryStatusSequence : List String :=
  ["OUT_FOR_PICKUP", "REACHED_PICKUP", "PICKED_UP",
   "OUT_FOR_DELIVERY", "REACHED_DELIVERY", "DELIVERED"]

/-- `STATUS_REMARKS` of `test-data.js` (`null` entries are `some none`
when attached; a status outside the table yields `none` = JS
`undefined`). -/
def STATUS_REMARKS (s : String) : Option String :=
  if s = "OUT_FOR_PICKUP" then some "Start for Pickup"
  else if s = "PICKED_UP" then some "admin quick scan"
  else if s = "OUT_FOR_DELIVERY" then some "Start for Delivery"
  else none

/-- Geographic coordinates carried by callback payloads. -/
structure GeoLocation where
  latitude : ℚ
  longitude : ℚ
  deriving Repr

/-- Rider info carried by callback payloads. -/
structure RiderInfo where
  id : String
  name : String
  mobile : String
  deriving Repr

/-- One entry of the `fulfillment.logs` array.  `remark` is `none` when
the field is absent (`CREATED`), `some r` when present with value `r`
(`r = none` embeds a JSON `null` remark). -/
structure LogEntry where
  timestamp : ℕ
  status : String
  channelOrderId : String
  attemptType : String
  location : Option GeoLocation
  rider : Option RiderInfo
  remark : Option (Option String)
  deriving Repr

/-- The `pickup`/`drop` sub-objects: location and timestamp appear only
once the corresponding milestone status is reached. -/
structure MilestoneInfo where
  eta : ℕ
  location : Option GeoLocation
  timestamp : Option ℕ
  deriving Repr

/-- The delivery-callback payload fields the claims are about.  Times are
milliseconds. -/
structure DeliveryCallbackPayload where
  id : String
  reference_id : String
  status : String
  created_at : ℕ
  updated_at : ℕ
  logs : List LogEntry
  fulfillmentStatus : String
  pickup : MilestoneInfo
  drop : MilestoneInfo
  rider : Option RiderInfo
  channelOrderId : String
  deriving Repr

/-- The fixed location constant used by `generateDeliveryCallback`. -/
def callbackLocation : GeoLocation := ⟨28.442554, 77.08023⟩

/-- The fixed rider constant used by `generateDeliveryCallback`. -/
def callbackRider : RiderInfo := ⟨"306", "Rider name", "8887772221"⟩

/-- `generateDeliveryCallback` from `test-data.js`: builds the payload
for one fulfillment status and returns it with the accumulated logs
(`previousLogs` plus the one new entry). -/
def generateDeliveryCallback (orderId deliveryOrderId channelOrderId : String)
    (fulfillmentStatus : String) (previousLogs : List LogEntry)
    (baseTime : ℕ) (minutesOffset : ℕ) :
    DeliveryCallbackPayload × List LogEntry :=
  let currentTime := baseTime + minutesOffset * 60 * 1000
  let status := if fulfillmentStatus = "DELIVERED" then "completed" else "fulfilled"
  let currentLog : LogEntry :=
    { timestamp := currentTime, status := fulfillmentStatus,
      channelOrderId := channelOrderId, attemptType := "FORWARD",
      location := if fulfillmentStatus ≠ "CREATED" then some callbackLocation else none,
      rider := if fulfillmentStatus ≠ "CREATED" then some callbackRider else none,
      remark := if fulfillmentStatus ≠ "CREATED" then some (STATUS_REMARKS fulfillmentStatus) else none }
  let logs := previousLogs ++ [currentLog]
  let pickupReached :=
    fulfillmentStatus = "PICKED_UP" ∨ fulfillmentStatus = "OUT_FOR_DELIVERY" ∨
      fulfillmentStatus = "DELIVERED"
  let pickup : MilestoneInfo :=
    { eta := baseTime + 12 * 60 * 1000,
      location := if pickupReached then some callbackLocation else none,
      timestamp := if pickupReached then some currentTime else none }
  let drop : MilestoneInfo :=
    { eta := baseTime + 22 * 60 * 1000,
      location := if fulfillmentStatus = "DELIVERED" then some callbackLocation else none,
      timestamp := if fulfillmentStatus = "DELIVERED" then some currentTime else none }
  let payload : DeliveryCallbackPayload :=
    { id := deliveryOrderId, reference_id := orderId, status := status,
      created_at := baseTime + 1 * 60 * 1000, updated_at := currentTime,
      logs := logs, fulfillmentStatus := fulfillmentStatus,
      pickup := pickup, drop := drop,
      rider := if fulfillmentStatus ≠ "CREATED" then some callbackRider else none,
      channelOrderId := channelOrderId }
  (payload, logs)

/-- The `statusTimeOffsets` table of the lifecycle drivers
(`statusTimeOffsets[status] || 0`). -/
def statusTimeOffsets (s : String) : ℕ :=
  if s = "CREATED" then 1
  else if s = "OUT_FOR_PICKUP" then 3
  else if s = "PICKED_UP" then 12
  else if s = "OUT_FOR_DELIVERY" then 12
  else if s = "DELIVERED" then 22
  else 0

/-- The delivery-callback loop of the lifecycle drivers on the
all-callbacks-accepted path: iterate a status sequence from `baseTime`,
generating one callback per status and threading the returned logs into
the next call starting from `[]`.  Returns the issued payloads in order
and the final log history. -/
def runDeliveryCallbacks (orderId deliveryId channelOrderId : String)
    (baseTime : ℕ) (sequence : List String) :
    List DeliveryCallbackPayload × List LogEntry :=
  sequence.foldl
    (fun acc status =>
      let r := generateDeliveryCallback orderId deliveryId channelOrderId
        status acc.2 baseTime (statusTimeOffsets status)
      (acc.1 ++ [r.1], r.2))
    ([], [])

/-! ## User pool (`generateUserPool`, `getUserFromPool`) -/

/-- One entry of the generated user pool. -/
structure PoolUser where
  index : ℕ
  name : String
  mobile : String
  deriving Repr, DecidableEq

/-- `String(i).padStart(3, '0')`. -/
def padStart3 (i : ℕ) : String :=
  let s := toString i
  if s.length ≥ 3 then s else String.mk (List.replicate (3 - s.length) '0') ++ s

/-- `generateUserPool` from `test-data.js` (`MOBILE_PREFIX = '9800000'`). -/
def generateUserPool (count : ℕ) : List PoolUser :=
  (List.range count).map (fun i =>
    ⟨i, "LoadTest User " ++ toString i, "9800000" ++ padStart3 i⟩)

/-- `getUserFromPool` from `test-data.js`: `users[vuId % users.length]`
(`none` embeds the JS `undefined` of an out-of-range index). -/
def getUserFromPool (users : List PoolUser) (vuId : ℕ) : Option PoolUser :=
  users[vuId % users.length]?

/-! ## Response parsing helpers (`helpers.js`) -/

/-- An HTTP response as the harness sees it: the status code and the
parsed body (`none` = the body is not valid JSON, so `JSON.parse`
throws). -/
structure Response where
  status : ℕ
  body : Option Json
  deriving Repr

/-- `extractData` from `helpers.js`: `JSON.parse` failure and member
access on a `null` body are caught and give `null`; otherwise the `data`
field (JS `undefined`, i.e. `none`, when missing). -/
def extractData (r : Response) : Option Json :=
  match r.body with
  | none => some .null
  | some .null => some .null
  | some body => body.lookup "data"

/-- `extractId` from `helpers.js`.  The whole body is wrapped in
`try ... catch { return null }`: parse failure, member access on a `null`
body, and member access on a `null` first array element all give `null`.
A nonempty `data` array yields `data[0].id || data[0]._id`; otherwise
`body.data?.id || body.data?._id || body.id`. -/
def extractId (r : Response) : Option Json :=
  match r.body with
  | none => some .null
  | some .null => some .null
  | some body =>
      match body.lookup "data" with
      | some (.arr (x :: _)) =>
          match x with
          | .null => some .null
          | _ => jsOr (x.lookup "id") (x.lookup "_id")
      | d => jsOr (optGet d "id") (jsOr (optGet d "_id") (body.lookup "id"))

/-! ## Workflow drivers

`runLifecycle` embeds the sanity/multi order-lifecycle scenario's default
function (ten phases, including the Address & Delivery Quote phase);
`order-lifecycle-test.js` is the same driver without the address-
resolution part of phase 3.  `completeOrderFlow` embeds the mixed-load
scenario's order flow.  The backend under test is an input: one response
per call the driver can make. -/

/-- The calls a driver can issue, in exactly the order they are pushed to
the trace. -/
inductive ApiCall where
  | menuCategory
  | addonList
  | loginOtp
  | loginVerify
  | addressList
  | addressCreate
  | deliveryQuote
  | orderCreate
  | paymentCreate
  | paymentVerify
  | posUpdate (targetStatus : String)
  | deliveryCallback (index : ℕ)
  | orderGet
  | orderTrack
  deriving Repr, DecidableEq

/-- `customerId = body.data?.[0]?.id || body.data?.id` inside the Phase 2
`check` callback; parse failure or access on a `null` body is caught and
leaves `customerId` null (`none`).  Note the surrounding code assigns
this whatever the verify HTTP status is. -/
def extractCustomerId (r : Response) : Option Json :=
  match r.body with
  | none => none
  | some .null => none
  | some body =>
      jsOr (optGet (optIndex0 (body.lookup "data")) "id")
        (optGet (body.lookup "data") "id")

/-- The customer id the Login phase of the lifecycle drivers leaves
behind: `none` when the OTP request fails (the phase returns before the
verify call), otherwise the Phase 2 extraction — applied to the verify
response whatever its HTTP status. -/
def lifecycleCustomerId (otpRes verifyRes : Response) : Option Json :=
  if otpRes.status = 200 then extractCustomerId verifyRes else none

/-- `orderId` after Phase 4: assigned only when the create-order response
has status 200; `body.data?.[0]?.id || body.data?.id` with the catch
branch falling back to `extractId`. -/
def lifecycleOrderId (r : Response) : Option Json :=
  if r.status = 200 then
    match r.body with
    | none => extractId r
    | some .null => extractId r
    | some body =>
        jsOr (optGet (optIndex0 (body.lookup "data")) "id")
          (optGet (body.lookup "data") "id")
  else none

/-- `paymentOrderId` after Phase 5: assigned only on status 200;
`body.data?.[0]?.paymentOrderId || body.data?.paymentOrderId` with parse
failure swallowed. -/
def lifecyclePaymentOrderId (r : Response) : Option Json :=
  if r.status = 200 then
    match r.body with
    | none => none
    | some .null => none
    | some body =>
        jsOr (optGet (optIndex0 (body.lookup "data")) "paymentOrderId")
          (optGet (body.lookup "data") "paymentOrderId")
  else none

/-- The `check` used for the address-list and delivery-quote calls of the
Address & Delivery Quote phase: `r.status === 200 || r.status === 404`
(404 explicitly tolerated). -/
def respondedOkCheck (r : Response) : Bool :=
  r.status == 200 || r.status == 404

/-- `addresses.find(a => a.isDefault)`: throws (`error`) when it reaches
a `null` element, otherwise the first element with truthy `isDefault`
(`none` when there is none). -/
def findDefaultAddr : List Json → Except Unit (Option Json)
  | [] => .ok none
  | a :: rest =>
      match a with
      | .null => .error ()
      | j =>
          if isTruthy (j.lookup "isDefault") then .ok (some j)
          else findDefaultAddr rest

/-- The address id obtained from the GET-addresses response in the
Address & Delivery Quote phase (`none` = `addressId` left null): only a
200 response is read; `const addresses = body.data || []`; only a
nonempty array proceeds; then
`defaultAddr?.id || addresses[0]?.id || addresses[0]?._id`, with thrown
errors caught and swallowed. -/
def addressIdFromList (r : Response) : Option Json :=
  if r.status = 200 then
    match r.body with
    | none => none
    | some .null => none
    | some body =>
        let data := body.lookup "data"
        match (if isTruthy data then data else some (.arr [])) with
        | some (.arr (x :: xs)) =>
            match findDefaultAddr (x :: xs) with
            | .error _ => none
            | .ok dflt =>
                jsOr (optGet dflt "id")
                  (jsOr (optGet (some x) "id") (optGet (some x) "_id"))
        | _ => none
  else none

/-- The address id obtained from the POST-create-address response
(`none` = left null): only a 200 response is read;
`body.data?.id || body.data?._id || body.data?.[0]?.id` with thrown
errors caught and swallowed. -/
def addressIdFromCreate (r : Response) : Option Json :=
  if r.status = 200 then
    match r.body with
    | none => none
    | some .null => none
    | some body =>
        let d := body.lookup "data"
        jsOr (optGet d "id") (jsOr (optGet d "_id") (optGet (optIndex0 d) "id"))
  else none

/-- The address id the Address & Delivery Quote phase ends up with: the
lookup result if truthy, else the creation result if truthy, else the
fallback `'106335'`. -/
def resolveAddressId (listRes createRes : Response) : Json :=
  let fromList := addressIdFromList listRes
  if isTruthy fromList then fromList.getD .null
  else
    let fromCreate := addressIdFromCreate createRes
    if isTruthy fromCreate then fromCreate.getD .null
    else .str "106335"

/-- `status = body.data?.[0]?.status || body.data?.status` in the User
Tracking phase, with parse failure caught. -/
def extractOrderStatus (r : Response) : Option Json :=
  match r.body with
  | none => none
  | some .null => none
  | some body =>
      jsOr (optGet (optIndex0 (body.lookup "data")) "status")
        (optGet (body.lookup "data") "status")

/-- The `'Status DELIVERED'` check: the extracted status `=== 'DELIVERED'`
(strict string equality), false when extraction failed. -/
def statusIsDelivered (r : Response) : Bool :=
  match extractOrderStatus r with
  | some (.str s) => s = "DELIVERED"
  | _ => false

/-- `delivered` in the User Tracking phase: the conjunction of the two
`check` conditions `'Order fetched'` (status 200) and
`'Status DELIVERED'`. -/
def trackingDelivered (r : Response) : Bool :=
  (r.status == 200) && statusIsDelivered r

/-- The backed-under-test of one lifecycle execution: one response per
call the driver can issue (`deliveryRes i` answers the i-th delivery
callback). -/
structure Backend where
  menuRes : Response
  addonsRes : Response
  otpRes : Response
  verifyRes : Response
  addressListRes : Response
  addressCreateRes : Response
  quoteRes : Response
  orderRes : Response
  payCreateRes : Response
  payVerifyRes : Response
  posAcceptRes : Response
  posReadyRes : Response
  deliveryRes : ℕ → Response
  orderGetRes : Response
  trackRes : Response

/-- The sanity/multi order-lifecycle driver (default function), embedded
as the ordered trace of calls it issues plus the final
`lifecycleSuccess` flag.  The payloads of the delivery callbacks it
issues (from locally generated random ids and `new Date()`) are those of
`runDeliveryCallbacks`; the trace records their position. -/
def runLifecycle (b : Backend) : List ApiCall × Bool :=
  -- Phase 1: Browse Menu (non-blocking)
  let t1 : List ApiCall := [.menuCategory, .addonList]
  -- Phase 2: Login
  if b.otpRes.status ≠ 200 then (t1 ++ [.loginOtp], false)
  else
    let customerId := extractCustomerId b.verifyRes
    let t2 := t1 ++ [.loginOtp, .loginVerify]
    if ¬ isTruthy customerId then (t2, false)
    else
      -- Phase 3: Address & Delivery Quote
      let fromList := addressIdFromList b.addressListRes
      let t3 := t2 ++ [.addressList]
        ++ (if isTruthy fromList then [] else [.addressCreate])
        ++ [.deliveryQuote]
      -- Phase 4: Create Order
      let orderId := lifecycleOrderId b.orderRes
      let t4 := t3 ++ [.orderCreate]
      if ¬ isTruthy orderId then (t4, false)
      else
        -- Phase 5: Create Payment
        let paymentOrderId := lifecyclePaymentOrderId b.payCreateRes
        let t5 := t4 ++ [.paymentCreate]
        if ¬ isTruthy paymentOrderId then (t5, false)
        else
          -- Phases 6-8: Verify Payment, POS callbacks (no gating)
          let t8 := t5 ++ [.paymentVerify, .posUpdate "ACCEPTED",
            .posUpdate "READY_FOR_DELIVERY"]
          -- Phase 9: Delivery Callbacks (one per status, no gating)
          let t9 := t8 ++ (List.range DELIVERY_STATUS_SEQUENCE.length).map
            (fun i => ApiCall.deliveryCallback i)
          -- Phase 10: User Tracking
          let t10 := t9 ++ [.orderGet, .orderTrack]
          (t10, trackingDelivered b.orderGetRes)

/-- `paymentOrderId = body.data?.[0]?.paymentOrderId` in the mixed-load
scenario's order flow (no `|| body.data?.paymentOrderId` there). -/
def flowPaymentOrderId (r : Response) : Option Json :=
  if r.status = 200 then
    match r.body with
    | none => none
    | some .null => none
    | some body => optGet (optIndex0 (body.lookup "data")) "paymentOrderId"
  else none

/-- The customer id the mixed-load scenario's order flow is left with:
unlike the lifecycle drivers, it parses the verify body only when the
verify response has status 200. -/
def flowCustomerId (otpRes verifyRes : Response) : Option Json :=
  if otpRes.status = 200 ∧ verifyRes.status = 200 then extractCustomerId verifyRes
  else none

/-- The mixed-load scenario's `completeOrderFlow`, embedded as the
ordered trace of calls plus its `success` flag. -/
def completeOrderFlow (otpRes verifyRes orderRes payCreateRes payVerifyRes : Response) :
    List ApiCall × Bool :=
  let t0 : List ApiCall := [.loginOtp]
  let t1 := t0 ++ (if otpRes.status = 200 then [ApiCall.loginVerify] else [])
  let customerId := flowCustomerId otpRes verifyRes
  if ¬ isTruthy customerId then (t1, false)
  else
    let orderId := if orderRes.status = 200 then extractId orderRes else none
    let t2 := t1 ++ [.orderCreate]
    if ¬ isTruthy orderId then (t2, false)
    else
      let paymentOrderId := flowPaymentOrderId payCreateRes
      let t3 := t2 ++ [.paymentCreate]
      if ¬ isTruthy paymentOrderId then (t3, false)
      else (t3 ++ [.paymentVerify], payVerifyRes.status == 200)

/-! ## Theorems -/

/-- Distributing a list sum over a pointwise sum of two maps. -/
theorem sum_map_add {α : Type} (l : List α) (f g : α → ℚ) :
    (l.map f).sum + (l.map g).sum = (l.map (fun x => f x + g x)).sum := by
  induction l with
  | nil => simp
  | cons x xs ih => simp only [List.map_cons, List.sum_cons, ← ih]; ring

/-- `addTax` adds exactly its contribution to the total of the tax map. -/
theorem addTax_total_sum (m : List TaxTotal) (t : MenuTax) (a : ℚ) :
    ((addTax m t a).map (fun x => x.total)).sum
      = (m.map (fun x => x.total)).sum + a := by
  induction m with
  | nil => simp [addTax]
  | cons x xs ih =>
      by_cases h : x.id = t.id
      · simp [addTax, h]; ring
      · simp [addTax, h, ih]; ring

/-- Folding contributions into the tax map accumulates their sum. -/
theorem foldl_addTax_total_sum (pairs : List (MenuTax × ℚ)) :
    ∀ m : List TaxTotal,
      ((pairs.foldl (fun m p => addTax m p.1 p.2) m).map (fun x => x.total)).sum
        = (m.map (fun x => x.total)).sum + (pairs.map (fun p => p.2)).sum := by
  induction pairs with
  | nil => intro m; simp
  | cons p ps ih =>
      intro m
      simp only [List.foldl_cons, ih, addTax_total_sum, List.map_cons, List.sum_cons]
      ring

/-- The grouped-by-id tax totals of `generateDynamicOrderDto` sum to the
raw per-item taxes of the selected items. -/
theorem taxTotalsOf_sum (sel : List (MenuItem × ℕ)) :
    ((taxTotalsOf sel).map (fun x => x.total)).sum = (sel.map dynamicItemTax).sum := by
  rw [taxTotalsOf, foldl_addTax_total_sum]
  simp only [List.map_nil, List.sum_nil, zero_add]
  induction sel with
  | nil => simp [taxContributions]
  | cons s ss ih =>
      simp only [taxContributions, List.flatMap_cons, List.map_append, List.sum_append,
        List.map_cons, List.sum_cons] at *
      rw [ih]
      simp [dynamicItemTax, List.map_map, Function.comp_def]

/-- The per-item CGST and SGST amounts of the static generator sum to
the item's combined raw tax. -/
theorem staticItemTax_split :
    (fun x : SampleItem × ℕ => x.1.price * (x.2 : ℚ) * x.1.cgstRate / 100
        + x.1.price * (x.2 : ℚ) * x.1.sgstRate / 100) = staticItemTax := by
  funext s
  rw [staticItemTax]
  ring

/-- C1: for every generated order draft — static `generateOrderDto` or
dynamic `generateDynamicOrderDto`, any item selection and quantities —
the payload satisfies
`grandTotalAmount = round2(subtotal + taxAmount + deliveryCharge +
packagingCharge)` and `taxAmount = round2(sum of raw per-item taxes)`,
where `subtotal` is the sum of the payload items' `finalPrice` values and
the per-item taxes are accumulated unrounded (rounding happens only at
the point of summation). -/
theorem orderDto_totals_invariant :
    (∀ (rid cid : String) (sel : List (SampleItem × ℕ)) (opts : OrderOptions),
      (generateOrderDto rid cid sel opts).grandTotalAmount
        = round2 ((((generateOrderDto rid cid sel opts).orderItems.map
              (fun i => i.finalPrice)).sum)
            + (sel.map staticItemTax).sum
            + (generateOrderDto rid cid sel opts).deliveryCharge
            + (generateOrderDto rid cid sel opts).packagingCharge)
      ∧ (generateOrderDto rid cid sel opts).taxAmount
          = round2 ((sel.map staticItemTax).sum))
    ∧ (∀ (rid cid : String) (sel : List (MenuItem × ℕ)) (opts : OrderOptions)
        (o : OrderDto), generateDynamicOrderDto rid cid sel opts = some o →
        o.grandTotalAmount
          = round2 (((o.orderItems.map (fun i => i.finalPrice)).sum)
              + (sel.map dynamicItemTax).sum + o.deliveryCharge + o.packagingCharge)
        ∧ o.taxAmount = round2 ((sel.map dynamicItemTax).sum)) := by
  constructor
  · intro rid cid sel opts
    constructor
    · simp only [generateOrderDto, List.map_map, Function.comp_def, sum_map_add,
        staticItemTax_split]
    · simp only [generateOrderDto, sum_map_add, staticItemTax_split]
  · intro rid cid sel opts o h
    by_cases hemp : sel.isEmpty
    · rw [generateDynamicOrderDto, if_pos hemp] at h
      exact absurd h (by simp)
    · rw [generateDynamicOrderDto, if_neg hemp] at h
      cases h
      constructor
      · simp only [List.map_map, Function.comp_def, taxTotalsOf_sum]
      · simp only [taxTotalsOf_sum]

/-- Two sample dynamic menu items used to instantiate the scenario of
the spec: priced 100.00 and 50.00, each with a combined 5% tax
(2.5% + 2.5%). -/
def sampleDynamicItemA : MenuItem :=
  ⟨"A1", "Item A", 100, [⟨"T1", "CGST", 2.5, "1"⟩, ⟨"T2", "SGST", 2.5, "1"⟩]⟩

/-- Companion of `sampleDynamicItemA`, priced 50.00. -/
def sampleDynamicItemB : MenuItem :=
  ⟨"B1", "Item B", 50, [⟨"T1", "CGST", 2.5, "1"⟩, ⟨"T2", "SGST", 2.5, "1"⟩]⟩

/-- Witness for C1 at concrete inputs: both generators evaluated on a
one-item selection satisfy the stated tax equation (the dynamic
hypothesis discharged by `rfl`). -/
theorem orderDto_totals_invariant_witness :
    ((generateOrderDto "R1" "C1" [(⟨"10523188", "Vanilla Icecream", 19, 2.5, 2.5⟩, 1)]
        {}).taxAmount
      = round2 (([((⟨"10523188", "Vanilla Icecream", 19, 2.5, 2.5⟩ : SampleItem), 1)].map
          staticItemTax).sum))
    ∧ ∃ o, generateDynamicOrderDto "R1" "C1" [(sampleDynamicItemA, 1)] {} = some o
        ∧ o.taxAmount = round2 (([(sampleDynamicItemA, 1)].map dynamicItemTax).sum) := by
  refine ⟨(orderDto_totals_invariant.1 "R1" "C1" _ {}).2, ⟨_, rfl, ?_⟩⟩
  exact (orderDto_totals_invariant.2 "R1" "C1" [(sampleDynamicItemA, 1)] {} _ rfl).2

/-- C6: with `itemCount = 2` and the two fixed sample items priced
100.00 and 50.00 (each 5% combined tax, quantity 1), the generated
delivery-order draft has subtotal 150.00, `taxAmount` 7.50 and
`grandTotalAmount` 230.60 = 150.00 + 7.50 + 53.10 + 20.00; and in every
generated draft the delivery charge is 53.1 unless the order type is the
pickup type `'2'`, where it is 0, while the packaging charge is the
constant 20. -/
theorem sampleOrder_totals :
    (∃ o, generateDynamicOrderDto "R1" "C1"
        [(sampleDynamicItemA, 1), (sampleDynamicItemB, 1)]
        ⟨some "1", some "CREDIT", none⟩ = some o
      ∧ (o.orderItems.map (fun i => i.finalPrice)).sum = 150
      ∧ o.taxAmount = 7.5
      ∧ o.deliveryCharge = 53.1
      ∧ o.packagingCharge = 20
      ∧ o.grandTotalAmount = 230.6
      ∧ (150 : ℚ) + 7.5 + 53.1 + 20 = 230.6)
    ∧ (∀ (rid cid : String) (sel : List (SampleItem × ℕ)) (opts : OrderOptions),
        (generateOrderDto rid cid sel opts).deliveryCharge
          = (if opts.orderType = some "2" then 0 else 53.1)
        ∧ (generateOrderDto rid cid sel opts).packagingCharge = 20)
    ∧ (∀ (rid cid : String) (sel : List (MenuItem × ℕ)) (opts : OrderOptions)
        (o : OrderDto), generateDynamicOrderDto rid cid sel opts = some o →
        o.deliveryCharge = (if opts.orderType = some "2" then 0 else 53.1)
        ∧ o.packagingCharge = 20) := by
  refine ⟨⟨_, rfl, ?_, ?_, ?_, ?_, ?_, by norm_num⟩, ?_, ?_⟩
  · simp [generateDynamicOrderDto, sampleDynamicItemA, sampleDynamicItemB]
    norm_num
  · simp [generateDynamicOrderDto, taxTotalsOf, taxContributions, addTax,
      sampleDynamicItemA, sampleDynamicItemB]
    norm_num [round2]
  · simp [generateDynamicOrderDto, sampleDynamicItemA, sampleDynamicItemB]
  · simp [generateDynamicOrderDto, sampleDynamicItemA, sampleDynamicItemB]
  · simp [generateDynamicOrderDto, taxTotalsOf, taxContributions, addTax,
      sampleDynamicItemA, sampleDynamicItemB]
    norm_num [round2]
  · intro rid cid sel opts
    exact ⟨rfl, rfl⟩
  · intro rid cid sel opts o h
    by_cases hemp : sel.isEmpty
    · rw [generateDynamicOrderDto, if_pos hemp] at h
      exact absurd h (by simp)
    · rw [generateDynamicOrderDto, if_neg hemp] at h
      cases h
      exact ⟨rfl, rfl⟩

/-- Witness for C6 at a concrete pickup-type input: order type `'2'`
yields delivery charge 0 and packaging charge 20 in the dynamic
generator (hypothesis discharged by `rfl`). -/
theorem sampleOrder_totals_witness :
    ∃ o, generateDynamicOrderDto "R1" "C1" [(sampleDynamicItemA, 1)]
        ⟨some "2", none, none⟩ = some o
      ∧ o.deliveryCharge = 0 ∧ o.packagingCharge = 20 := by
  obtain ⟨h1, h2⟩ := sampleOrder_totals.2.2 "R1" "C1" [(sampleDynamicItemA, 1)]
    ⟨some "2", none, none⟩ _ rfl
  exact ⟨_, rfl, by simpa using h1, h2⟩

/-- C2 (corrected): the per-status minute-offset table gives `PICKED_UP`
and `OUT_FOR_DELIVERY` the same offset 12, so on a fixed base time two
successive callbacks carry the same timestamp: the timestamps of the
sequence are not strictly increasing. -/
theorem deliveryCallbacks_not_strictly_increasing :
    ((runDeliveryCallbacks "ORD1" "DEL1" "CH1" 0 DELIVERY_STATUS_SEQUENCE).1.map
        (fun p => p.updated_at)) = [60000, 180000, 720000, 720000, 1320000]
    ∧ ¬ List.Chain' (· < ·)
        ((runDeliveryCallbacks "ORD1" "DEL1" "CH1" 0 DELIVERY_STATUS_SEQUENCE).1.map
          (fun p => p.updated_at)) := by
  have h : ((runDeliveryCallbacks "ORD1" "DEL1" "CH1" 0 DELIVERY_STATUS_SEQUENCE).1.map
      (fun p => p.updated_at)) = [60000, 180000, 720000, 720000, 1320000] := by decide
  refine ⟨h, ?_⟩
  rw [h]
  intro hc
  simp [List.chain'_cons] at hc

/-- C2 (amended): iterating the fulfillment status sequence with the
per-status minute-offset table over a fixed base time, the timestamps
carried by successive callbacks (`updated_at`, and likewise the log
entries' timestamps) are non-decreasing across the sequence — weakly
monotone, with equality between the `PICKED_UP` and `OUT_FOR_DELIVERY`
callbacks, whose offsets coincide. -/
theorem deliveryCallbacks_timestamps_monotone
    (orderId deliveryId channelOrderId : String) (baseTime : ℕ) :
    List.Chain' (· ≤ ·)
      (((runDeliveryCallbacks orderId deliveryId channelOrderId baseTime
          DELIVERY_STATUS_SEQUENCE).1).map (fun p => p.updated_at))
    ∧ List.Chain' (· ≤ ·)
      (((runDeliveryCallbacks orderId deliveryId channelOrderId baseTime
          DELIVERY_STATUS_SEQUENCE).2).map (fun l => l.timestamp)) := by
  constructor <;>
    simp [runDeliveryCallbacks, DELIVERY_STATUS_SEQUENCE, generateDeliveryCallback,
      statusTimeOffsets, List.chain'_cons]

/-- C3 (corrected): sequentially applying the generator over the driver's
status sequence yields a final log array with exactly 5 entries, not 6. -/
theorem deliveryLogs_final_count_is_five :
    (runDeliveryCallbacks "ORD1" "DEL1" "CH1" 0 DELIVERY_STATUS_SEQUENCE).2.length = 5
    ∧ ¬ (runDeliveryCallbacks "ORD1" "DEL1" "CH1" 0 DELIVERY_STATUS_SEQUENCE).2.length = 6 := by
  constructor
  · decide
  · decide

/-- C3 (amended): sequentially applying `generateDeliveryCallback` over
the driver's fulfillment status sequence, threading each returned logs
array into the next call starting from `[]`, every call returns the
previous logs plus exactly one new entry (so the first callback carries
one entry and each later callback one more than its predecessor), and
the final log array contains exactly 5 entries in the fixed order
`CREATED, OUT_FOR_PICKUP, PICKED_UP, OUT_FOR_DELIVERY, DELIVERED`; the
separate 6-stage variant `getDeliveryStatusSequence` (not used by any
driver) yields 6 entries `OUT_FOR_PICKUP, REACHED_PICKUP, PICKED_UP,
OUT_FOR_DELIVERY, REACHED_DELIVERY, DELIVERED`, without `CREATED`. -/
theorem deliveryLogs_roundTrip
    (orderId deliveryId channelOrderId : String) (baseTime : ℕ) :
    (∀ fs : String, ∀ prev : List LogEntry, ∀ bt mo : ℕ, ∃ e,
      (generateDeliveryCallback orderId deliveryId channelOrderId fs prev bt mo).2
        = prev ++ [e])
    ∧ List.Chain' (fun p q => ∃ e, q.logs = p.logs ++ [e])
        ((runDeliveryCallbacks orderId deliveryId channelOrderId baseTime
          DELIVERY_STATUS_SEQUENCE).1)
    ∧ ((runDeliveryCallbacks orderId deliveryId channelOrderId baseTime
          DELIVERY_STATUS_SEQUENCE).1.head?.map (fun p => p.logs.length)) = some 1
    ∧ ((runDeliveryCallbacks orderId deliveryId channelOrderId baseTime
          DELIVERY_STATUS_SEQUENCE).2.map (fun l => l.status)) = DELIVERY_STATUS_SEQUENCE
    ∧ (runDeliveryCallbacks orderId deliveryId channelOrderId baseTime
          DELIVERY_STATUS_SEQUENCE).2.length = 5
    ∧ ((runDeliveryCallbacks orderId deliveryId channelOrderId baseTime
          getDeliveryStatusSequence).2.map (fun l => l.status)) = getDeliveryStatusSequence
    ∧ getDeliveryStatusSequence.length = 6 := by
  refine ⟨fun fs prev bt mo => ⟨_, rfl⟩, ?_, ?_, ?_, ?_, ?_, ?_⟩ <;>
    simp [runDeliveryCallbacks, DELIVERY_STATUS_SEQUENCE, getDeliveryStatusSequence,
      generateDeliveryCallback, statusTimeOffsets, List.chain'_cons]

/-- C9 (corrected): the claim that an empty `data` array yields `null`
fails: `extractId` falls back to the top-level `body.id`, so a body with
an empty `data` array and a top-level `id` yields that id, not `null`
and not `undefined`. -/
theorem extractId_topLevel_fallback :
    extractId ⟨200, some (.obj [("id", .num 7), ("data", .arr [])])⟩ = some (.num 7)
    ∧ extractId ⟨200, some (.obj [("id", .num 7), ("data", .arr [])])⟩ ≠ some Json.null
    ∧ extractId ⟨200, some (.obj [("id", .num 7), ("data", .arr [])])⟩ ≠ none := by
  refine ⟨rfl, ?_, ?_⟩ <;> simp [extractId, Json.lookup, optGet, jsOr, isTruthy]

/-- C9 (amended): `extractData` and `extractId` are total (the source
wraps everything in `try/catch`, so nothing escapes) and return the
extracted value, `null`, or `undefined`: an unparseable body yields
`null` for both; a missing `data` field yields `undefined` from
`extractData`; a missing `data` field, an empty `data` array, or a first
`data` record without `id`/`_id` yield `undefined` from `extractId` —
provided the body has no top-level `id`, to which `extractId` otherwise
falls back (last conjunct); a `null` first record makes the member
access throw and the catch return `null`. -/
theorem extractHelpers_null_safety :
    (∀ st : ℕ, extractData ⟨st, none⟩ = some Json.null
      ∧ extractId ⟨st, none⟩ = some Json.null)
    ∧ (∀ (st : ℕ) (body : Json), body ≠ Json.null → body.lookup "data" = none →
        extractData ⟨st, some body⟩ = none)
    ∧ (∀ (st : ℕ) (body : Json), body ≠ Json.null → body.lookup "data" = none →
        body.lookup "id" = none → extractId ⟨st, some body⟩ = none)
    ∧ (∀ (st : ℕ) (body : Json), body ≠ Json.null →
        body.lookup "data" = some (.arr []) → body.lookup "id" = none →
        extractId ⟨st, some body⟩ = none)
    ∧ (∀ (st : ℕ) (body x : Json) (xs : List Json), x ≠ Json.null →
        body.lookup "data" = some (.arr (x :: xs)) →
        x.lookup "id" = none → x.lookup "_id" = none →
        extractId ⟨st, some body⟩ = none)
    ∧ (∀ (st : ℕ) (body : Json), body.lookup "data" = some (.arr [Json.null]) →
        extractId ⟨st, some body⟩ = some Json.null)
    ∧ extractId ⟨200, some (.obj [("id", .num 7), ("data", .arr [])])⟩
        = some (.num 7) := by
  refine ⟨fun st => ⟨rfl, rfl⟩, ?_, ?_, ?_, ?_, ?_, rfl⟩
  · intro st body hnull hdata
    cases body with
    | null => exact absurd rfl hnull
    | obj fields =>
        simp only [extractData, Json.lookup] at hdata ⊢
        exact hdata
    | _ => simp [extractData, Json.lookup]
  · intro st body hnull hdata hid
    cases body with
    | null => exact absurd rfl hnull
    | obj fields =>
        simp only [extractId, Json.lookup] at hdata hid ⊢
        rw [hdata]
        simp [optGet, jsOr, isTruthy, hid]
    | _ => simp [extractId, Json.lookup, optGet, jsOr, isTruthy]
  · intro st body hnull hdata hid
    cases body with
    | null => exact absurd rfl hnull
    | obj fields =>
        simp only [extractId, Json.lookup] at hdata hid ⊢
        rw [hdata]
        simp [optGet, jsOr, isTruthy, Json.lookup, hid]
    | _ => simp_all [Json.lookup]
  · intro st body x xs hxnull hdata hid hid2
    cases body with
    | null => simp [Json.lookup] at hdata
    | obj fields =>
        simp only [extractId, Json.lookup] at hdata ⊢
        rw [hdata]
        cases x with
        | null => exact absurd rfl hxnull
        | obj xf =>
            simp only [Json.lookup] at hid hid2
            simp [jsOr, isTruthy, Json.lookup, hid, hid2]
        | _ => simp [jsOr, isTruthy, Json.lookup]
    | _ => simp [Json.lookup] at hdata
  · intro st body hdata
    cases body with
    | obj fields =>
        simp only [extractId, Json.lookup] at hdata ⊢
        rw [hdata]
    | _ => simp [Json.lookup] at hdata

/-- Witness for C9 at concrete inputs: an unparseable body yields
`null`; a parseable body without `data` yields `undefined`; a `data`
record without `id`/`_id` yields `undefined`. -/
theorem extractHelpers_null_safety_witness :
    extractData ⟨500, none⟩ = some Json.null
    ∧ extractData ⟨200, some (Json.obj [("error", Json.bool false)])⟩ = none
    ∧ extractId ⟨200, some (Json.obj
        [("data", Json.arr [Json.obj [("name", Json.str "x")]])])⟩ = none := by
  refine ⟨(extractHelpers_null_safety.1 500).1, ?_, ?_⟩
  · exact extractHelpers_null_safety.2.1 200 (Json.obj [("error", Json.bool false)])
      (by simp) (by simp [Json.lookup])
  · exact extractHelpers_null_safety.2.2.2.2.1 200
      (Json.obj [("data", Json.arr [Json.obj [("name", Json.str "x")]])])
      (Json.obj [("name", Json.str "x")]) []
      (by simp) (by simp [Json.lookup]) (by simp [Json.lookup]) (by simp [Json.lookup])

/-- C7: `generateOrderStatusUpdate` maps `ACCEPTED` to `'3'` and
`READY_FOR_DELIVERY` to `'5'`, and passes every other status name
through unchanged (it is a total function: the fallback is the input
value, never an error). -/
theorem generateOrderStatusUpdate_statusMap (msc oid : String) :
    (generateOrderStatusUpdate msc oid "ACCEPTED").status = "3"
    ∧ (generateOrderStatusUpdate msc oid "READY_FOR_DELIVERY").status = "5"
    ∧ ∀ s : String, s ≠ "ACCEPTED" → s ≠ "READY_FOR_DELIVERY" →
        (generateOrderStatusUpdate msc oid s).status = s := by
  refine ⟨rfl, rfl, ?_⟩
  intro s h1 h2
  simp [generateOrderStatusUpdate, posStatusMap, List.find?, Ne.symm h1, Ne.symm h2]

/-- Witness for C7 at concrete inputs: `ACCEPTED` maps to `'3'` and the
unrecognized name `CANCELLED` passes through. -/
theorem generateOrderStatusUpdate_statusMap_witness :
    (generateOrderStatusUpdate "MSC42" "1001" "ACCEPTED").status = "3"
    ∧ (generateOrderStatusUpdate "MSC42" "1001" "CANCELLED").status = "CANCELLED" :=
  ⟨(generateOrderStatusUpdate_statusMap "MSC42" "1001").1,
   (generateOrderStatusUpdate_statusMap "MSC42" "1001").2.2 "CANCELLED"
     (by decide) (by decide)⟩

/-- C10: for a pool of `count ≥ 1` users, `getUserFromPool` always
returns the defined pool element at index `vuId % count` — in-bounds,
and fully determined by `vuId` (same `vuId`, same user). -/
theorem getUserFromPool_roundRobin (count vuId : ℕ) (h : 1 ≤ count) :
    getUserFromPool (generateUserPool count) vuId =
      some ⟨vuId % count, "LoadTest User " ++ toString (vuId % count),
        "9800000" ++ padStart3 (vuId % count)⟩
    ∧ vuId % count < count := by
  have hmod : vuId % count < count := Nat.mod_lt _ (by omega)
  have hlen : (generateUserPool count).length = count := by simp [generateUserPool]
  refine ⟨?_, hmod⟩
  simp [getUserFromPool, hlen, generateUserPool, List.getElem?_map, List.getElem?_range, hmod]

/-- Witness for C10: a pool of 3 users, virtual-user id 7, yields the
user at index `7 % 3 = 1`. -/
theorem getUserFromPool_roundRobin_witness :
    getUserFromPool (generateUserPool 3) 7 =
      some ⟨7 % 3, "LoadTest User " ++ toString (7 % 3), "9800000" ++ padStart3 (7 % 3)⟩
    ∧ 7 % 3 < 3 :=
  getUserFromPool_roundRobin 3 7 (by decide)

/-! ### Concrete backends used by the workflow-driver claims -/

/-- A backend answering every call with 200 and a well-formed body; the
final order status reads `DELIVERED`. -/
def allOkBackend : Backend where
  menuRes := ⟨200, some (.obj [("data", .arr [])])⟩
  addonsRes := ⟨200, some (.obj [("data", .arr [])])⟩
  otpRes := ⟨200, some (.obj [("data", .str "otp-sent")])⟩
  verifyRes := ⟨200, some (.obj [("data", .arr [.obj [("id", .str "cust-1")]])])⟩
  addressListRes := ⟨200, some (.obj [("data", .arr [.obj [("id", .str "addr-1"),
    ("isDefault", .bool true)]])])⟩
  addressCreateRes := ⟨200, some (.obj [("data", .obj [("id", .str "addr-2")])])⟩
  quoteRes := ⟨200, some (.obj [("data", .obj [])])⟩
  orderRes := ⟨200, some (.obj [("data", .arr [.obj [("id", .str "ord-1"),
    ("menuSharingCode", .str "msc-1")]])])⟩
  payCreateRes := ⟨200, some (.obj [("data", .arr [.obj [("paymentOrderId", .str "pay-1")]])])⟩
  payVerifyRes := ⟨200, some (.obj [("data", .str "ok")])⟩
  posAcceptRes := ⟨200, some (.obj [("data", .str "ok")])⟩
  posReadyRes := ⟨200, some (.obj [("data", .str "ok")])⟩
  deliveryRes := fun _ => ⟨200, some (.obj [("data", .str "ok")])⟩
  orderGetRes := ⟨200, some (.obj [("data", .arr [.obj [("status", .str "DELIVERED")]])])⟩
  trackRes := ⟨200, some (.obj [("data", .obj [])])⟩

/-- `allOkBackend` except the verify-OTP response: HTTP 500 with a valid
body that still carries `data[0].id`. -/
def badVerifyBackend : Backend :=
  { allOkBackend with
    verifyRes := ⟨500, some (.obj [("data", .arr [.obj [("id", .str "cust-1")]])])⟩ }

/-- `allOkBackend` except the OTP request fails outright. -/
def noLoginBackend : Backend :=
  { allOkBackend with otpRes := ⟨503, none⟩ }

/-- C4 (corrected): in the lifecycle driver a non-200 verify response
does not short-circuit the workflow: the customer id is extracted from
the verify body whatever the HTTP status, so a 500 verify response whose
body still carries `data[0].id` leads to a CreateOrder call. -/
theorem lifecycle_non200_verify_still_orders :
    badVerifyBackend.verifyRes.status = 500
    ∧ ApiCall.orderCreate ∈ (runLifecycle badVerifyBackend).1 := by
  constructor
  · rfl
  · decide

/-- C4 (amended): in every workflow execution, if the Login phase does
not yield a truthy customer id, no CreateOrder call is issued and no
later phase (payment, POS, delivery, tracking) runs, and the execution
is marked unsuccessful.  In the lifecycle driver an unparseable verify
body or a missing id field yields no customer id, but a non-200 verify
status alone does not (the id is extracted regardless of the status); in
the mixed-load `completeOrderFlow`, a non-200 OTP or verify response
also yields no customer id. -/
theorem login_short_circuit :
    (∀ b : Backend, isTruthy (lifecycleCustomerId b.otpRes b.verifyRes) = false →
      ((runLifecycle b).1 = [.menuCategory, .addonList, .loginOtp]
        ∨ (runLifecycle b).1 = [.menuCategory, .addonList, .loginOtp, .loginVerify])
      ∧ ApiCall.orderCreate ∉ (runLifecycle b).1
      ∧ ApiCall.paymentCreate ∉ (runLifecycle b).1
      ∧ ApiCall.paymentVerify ∉ (runLifecycle b).1
      ∧ (∀ s, ApiCall.posUpdate s ∉ (runLifecycle b).1)
      ∧ (∀ i, ApiCall.deliveryCallback i ∉ (runLifecycle b).1)
      ∧ ApiCall.orderGet ∉ (runLifecycle b).1
      ∧ ApiCall.orderTrack ∉ (runLifecycle b).1
      ∧ (runLifecycle b).2 = false)
    ∧ (∀ otpRes verifyRes orderRes payCreateRes payVerifyRes : Response,
        isTruthy (flowCustomerId otpRes verifyRes) = false →
        ApiCall.orderCreate
            ∉ (completeOrderFlow otpRes verifyRes orderRes payCreateRes payVerifyRes).1
        ∧ ApiCall.paymentCreate
            ∉ (completeOrderFlow otpRes verifyRes orderRes payCreateRes payVerifyRes).1
        ∧ ApiCall.paymentVerify
            ∉ (completeOrderFlow otpRes verifyRes orderRes payCreateRes payVerifyRes).1
        ∧ (completeOrderFlow otpRes verifyRes orderRes payCreateRes payVerifyRes).2
            = false) := by
  constructor
  · intro b h
    rw [runLifecycle]
    by_cases hotp : b.otpRes.status = 200
    · rw [lifecycleCustomerId, if_pos hotp] at h
      simp [hotp, h]
    · simp [lifecycleCustomerId, hotp] at h ⊢
  · intro otpRes verifyRes orderRes payCreateRes payVerifyRes h
    rw [completeOrderFlow]
    simp [h]

/-- Witness for C4: with the OTP request failing (503), the lifecycle
driver issues no CreateOrder call and reports failure. -/
theorem login_short_circuit_witness :
    ApiCall.orderCreate ∉ (runLifecycle noLoginBackend).1
    ∧ (runLifecycle noLoginBackend).2 = false :=
  ⟨((login_short_circuit.1 noLoginBackend (by decide)).2.1),
   ((login_short_circuit.1 noLoginBackend (by decide)).2.2.2.2.2.2.2.2)⟩

/-- C5 (corrected): on a GET order-by-id response with HTTP status 500
whose body still reads `status = "DELIVERED"`, the extracted status
string equals `DELIVERED` and yet the phase marks success false: the
claimed "if and only if the extracted status equals DELIVERED" omits the
HTTP-200 conjunct of the `check`. -/
theorem trackingDelivered_requires_http200 :
    extractOrderStatus
        ⟨500, some (.obj [("data", .arr [.obj [("status", .str "DELIVERED")]])])⟩
      = some (.str "DELIVERED")
    ∧ trackingDelivered
        ⟨500, some (.obj [("data", .arr [.obj [("status", .str "DELIVERED")]])])⟩
      = false :=
  ⟨rfl, rfl⟩

/-- The `'Status DELIVERED'` check passes exactly on an extracted status
strictly equal to the string `DELIVERED`. -/
theorem statusIsDelivered_iff (r : Response) :
    statusIsDelivered r = true ↔ extractOrderStatus r = some (Json.str "DELIVERED") := by
  rw [statusIsDelivered]
  cases h : extractOrderStatus r with
  | none => simp
  | some v => cases v <;> simp_all

/-- C5 (amended): the User Tracking phase marks the workflow successful
if and only if the GET order-by-id response has HTTP status 200 AND the
status string extracted from it equals exactly `"DELIVERED"`
(case-sensitive strict equality, not prefix or substring match); and
whenever the driver reaches the tracking phase, the overall workflow
success is exactly that phase's verdict. -/
theorem userTracking_success_iff :
    (∀ r : Response, trackingDelivered r = true ↔
      (r.status = 200 ∧ extractOrderStatus r = some (Json.str "DELIVERED")))
    ∧ (∀ b : Backend,
        isTruthy (lifecycleCustomerId b.otpRes b.verifyRes) = true →
        isTruthy (lifecycleOrderId b.orderRes) = true →
        isTruthy (lifecyclePaymentOrderId b.payCreateRes) = true →
        (runLifecycle b).2 = trackingDelivered b.orderGetRes) := by
  constructor
  · intro r
    rw [trackingDelivered, Bool.and_eq_true, statusIsDelivered_iff, beq_iff_eq]
  · intro b hc ho hp
    have hotp : b.otpRes.status = 200 := by
      by_cases h : b.otpRes.status = 200
      · exact h
      · rw [lifecycleCustomerId, if_neg h] at hc
        simp [isTruthy] at hc
    rw [lifecycleCustomerId, if_pos hotp] at hc
    rw [runLifecycle]
    simp [hotp, hc, ho, hp]

/-- Witness for C5: the all-OK backend reaches the tracking phase, its
success equals the tracking verdict, and the verdict is true on its
200/DELIVERED response. -/
theorem userTracking_success_iff_witness :
    (runLifecycle allOkBackend).2 = trackingDelivered allOkBackend.orderGetRes
    ∧ trackingDelivered allOkBackend.orderGetRes = true :=
  ⟨userTracking_success_iff.2 allOkBackend (by decide) (by decide) (by decide),
   (userTracking_success_iff.1 allOkBackend.orderGetRes).mpr ⟨rfl, rfl⟩⟩

/-- C8: in the Address & Delivery Quote phase a 404 on the address
lookup or the quote passes the phase's check (tolerated, not a
failure); whenever the lookup yields no truthy address id and the
creation yields none either, the phase proceeds with the fallback id
`'106335'`; and once a customer id was obtained, the workflow always
goes on to issue the CreateOrder call, whatever the address and quote
responses were. -/
theorem addressQuote_404_tolerated :
    (∀ r : Response, r.status = 404 → respondedOkCheck r = true)
    ∧ (∀ listRes createRes : Response,
        isTruthy (addressIdFromList listRes) = false →
        isTruthy (addressIdFromCreate createRes) = false →
        resolveAddressId listRes createRes = Json.str "106335")
    ∧ (∀ b : Backend, isTruthy (lifecycleCustomerId b.otpRes b.verifyRes) = true →
        ApiCall.orderCreate ∈ (runLifecycle b).1) := by
  refine ⟨?_, ?_, ?_⟩
  · intro r h
    simp [respondedOkCheck, h]
  · intro listRes createRes h1 h2
    rw [resolveAddressId]
    simp [h1, h2]
  · intro b hc
    have hotp : b.otpRes.status = 200 := by
      by_cases h : b.otpRes.status = 200
      · exact h
      · rw [lifecycleCustomerId, if_neg h] at hc
        simp [isTruthy] at hc
    rw [lifecycleCustomerId, if_pos hotp] at hc
    rw [runLifecycle]
    by_cases ho : isTruthy (lifecycleOrderId b.orderRes) <;>
      by_cases hp : isTruthy (lifecyclePaymentOrderId b.payCreateRes) <;>
        simp [hotp, hc, ho, hp]

/-- Witness for C8: a 404 quote/lookup response passes the check; with a
404 lookup and a 500 creation the phase falls back to `'106335'`; and
the all-OK backend's trace contains the CreateOrder call. -/
theorem addressQuote_404_tolerated_witness :
    respondedOkCheck ⟨404, none⟩ = true
    ∧ resolveAddressId ⟨404, none⟩ ⟨500, none⟩ = Json.str "106335"
    ∧ ApiCall.orderCreate ∈ (runLifecycle allOkBackend).1 :=
  ⟨addressQuote_404_tolerated.1 ⟨404, none⟩ rfl,
   addressQuote_404_tolerated.2.1 ⟨404, none⟩ ⟨500, none⟩ rfl rfl,
   addressQuote_404_tolerated.2.2 allOkBackend (by decide)⟩

end HypK6
